import Mathlib

/-!
Verification development for the anvil trading-simulator repository.

The definitions below are a shallow embedding of the Python sources:

* `src/anvil/trading_simulator.py` — `RealtimeTradingSimulator`
  (`get_balance`, `get_safe_amount`, `send_transaction_async`,
  `simulate_random_trading`, `stop`, the `stats` dictionary);
* `src/anvil/anvil_manager.py` — `AnvilManager.get_accounts`;
* `src/anvil/monitor.py` — `RealtimeMonitor.on_transaction_complete`.

ETH amounts (Python floats in the source) are modelled as exact rationals;
wei balances as integers.  External effects (the RPC balance query, the gas
price fetch, the transaction send/receipt, and whether the registered
callback raises) are passed in as explicit parameters, so each source
function becomes a pure function of its inputs and the ambient state it
reads and writes.
-/

namespace Anvil

/-- Wei per ether, the unit conversion used by `w3.to_wei / w3.from_wei`. -/
def weiPerEth : ℤ := 10 ^ 18

/-- `w3.from_wei(b, 'ether')` as exact rational arithmetic. -/
def fromWei (b : ℤ) : ℚ := (b : ℚ) / (weiPerEth : ℚ)

/-- `w3.to_wei(x, 'ether')`, kept rational (the source converts float ETH
amounts; we model the conversion exactly). -/
def toWei (x : ℚ) : ℚ := x * (weiPerEth : ℚ)

/-- The gas reserve of `get_safe_amount`: `gas_reserve_eth = 0.01`. -/
def gasReserve : ℚ := 1 / 100

/-- The simulator's `stats` dictionary (`trading_simulator.py`, lines 40-47).
The `start_time` entry only feeds derived timing metrics and is carried
unchanged by every path modelled here, so it is omitted. -/
structure Stats where
  total_transactions : ℕ
  successful_transactions : ℕ
  failed_transactions : ℕ
  insufficient_funds : ℕ
  total_gas_used : ℕ
  deriving DecidableEq, Repr

/-- The zero-initialised `stats` dictionary of `__init__`. -/
def initialStats : Stats :=
  { total_transactions := 0
    successful_transactions := 0
    failed_transactions := 0
    insufficient_funds := 0
    total_gas_used := 0 }

/-- `TransactionResult` (`trading_simulator.py`, lines 13-22).  The opaque
string/timestamp fields (`tx_hash`, `timestamp`, `block_number`,
addresses) carry no logic and are dropped; the account indices stand in
for the addresses. -/
structure TransactionResult where
  from_idx : ℕ
  to_idx : ℕ
  amount : ℚ
  gas_used : ℕ
  status : Bool
  deriving DecidableEq, Repr

/-- Behaviour of the external executor for one operation: either
`send_raw_transaction` + `wait_for_transaction_receipt` settle with a
receipt (`status` 1 or 0, some gas used), or the pair raises
(send rejection or receipt timeout). -/
inductive ExecVerdict where
  | settled (ok : Bool) (gasUsed : ℕ)
  | error
  deriving DecidableEq, Repr

/-- `get_safe_amount` (`trading_simulator.py`, lines 122-132):
`min(max(0, balance_eth - 0.01), max_amount_eth)`. -/
def get_safe_amount (balanceWei : ℤ) (maxAmountEth : ℚ) : ℚ :=
  min (max 0 (fromWei balanceWei - gasReserve)) maxAmountEth

/-- Everything one call of `send_transaction_async` does besides returning:
how many times the executor (`send_raw_transaction`) was contacted, how
many times the `on_transaction_complete` callback was entered, the value
`return`ed (`None` on every `except` path), the updated `stats`, the wei
amount handed to the executor (when it was contacted), and the optimistic
write to `balance_cache` (present only on the receipt path). -/
structure DispatchOut where
  executorCalls : ℕ
  hookCalls : ℕ
  returned : Option TransactionResult
  stats : Stats
  dispatchedAmountWei : Option ℚ
  balanceCacheWrite : Option ℚ
  deriving DecidableEq, Repr

/-- `send_transaction_async` (`trading_simulator.py`, lines 134-218) as a
pure function.  `b1` is the balance `get_balance(from_idx)` returns inside
`get_safe_amount`; `b2` the one returned at the final check (line 169);
`gasPrice` the value of `w3.eth.gas_price` (or the 2-gwei fallback);
`exec` the executor's behaviour; `hookRegistered` whether
`on_transaction_complete` is set and `hookRaises` whether that callback
raises when entered (a raise lands in the same `except` block). -/
def send_transaction (from_idx to_idx : ℕ) (b1 b2 : ℤ) (amount_eth : ℚ)
    (gasPrice : ℤ) (exec : ExecVerdict) (hookRegistered hookRaises : Bool)
    (s : Stats) : DispatchOut :=
  let safe_amount := get_safe_amount b1 amount_eth
  if safe_amount ≤ 0 then
    -- lines 143-145: count insufficient funds, raise; the exception is
    -- caught at lines 214-218 (total += 1, failed += 1, return None).
    { executorCalls := 0
      hookCalls := 0
      returned := none
      stats := { s with
        insufficient_funds := s.insufficient_funds + 1
        total_transactions := s.total_transactions + 1
        failed_transactions := s.failed_transactions + 1 }
      dispatchedAmountWei := none
      balanceCacheWrite := none }
  else
    let amount_wei := toWei safe_amount
    let total_cost := amount_wei + 21000 * (gasPrice : ℚ)
    if (b2 : ℚ) < total_cost then
      -- lines 168-174: final balance check fails, raise; caught below.
      { executorCalls := 0
        hookCalls := 0
        returned := none
        stats := { s with
          insufficient_funds := s.insufficient_funds + 1
          total_transactions := s.total_transactions + 1
          failed_transactions := s.failed_transactions + 1 }
        dispatchedAmountWei := none
        balanceCacheWrite := none }
    else
      match exec with
      | .error =>
        -- lines 180-183 raise (send rejected or receipt timed out);
        -- caught at lines 214-218.
        { executorCalls := 1
          hookCalls := 0
          returned := none
          stats := { s with
            total_transactions := s.total_transactions + 1
            failed_transactions := s.failed_transactions + 1 }
          dispatchedAmountWei := some amount_wei
          balanceCacheWrite := none }
      | .settled ok gasUsed =>
        let result : TransactionResult :=
          { from_idx := from_idx
            to_idx := to_idx
            amount := safe_amount
            gas_used := gasUsed
            status := ok }
        let s1 : Stats := { s with
          total_transactions := s.total_transactions + 1
          successful_transactions :=
            s.successful_transactions + (if ok then 1 else 0)
          failed_transactions :=
            s.failed_transactions + (if ok then 0 else 1)
          total_gas_used := s.total_gas_used + gasUsed }
        if hookRegistered then
          if hookRaises then
            -- the callback raise propagates into the same `except`
            -- block: total and failed are incremented a second time
            -- and None is returned.
            { executorCalls := 1
              hookCalls := 1
              returned := none
              stats := { s1 with
                total_transactions := s1.total_transactions + 1
                failed_transactions := s1.failed_transactions + 1 }
              dispatchedAmountWei := some amount_wei
              balanceCacheWrite := some ((b2 : ℚ) - total_cost) }
          else
            { executorCalls := 1
              hookCalls := 1
              returned := some result
              stats := s1
              dispatchedAmountWei := some amount_wei
              balanceCacheWrite := some ((b2 : ℚ) - total_cost) }
        else
          { executorCalls := 1
            hookCalls := 0
            returned := some result
            stats := s1
            dispatchedAmountWei := some amount_wei
            balanceCacheWrite := some ((b2 : ℚ) - total_cost) }

/-- The per-operation inputs of one `send_transaction_async` call. -/
structure OpInput where
  from_idx : ℕ
  to_idx : ℕ
  b1 : ℤ
  b2 : ℤ
  amount_eth : ℚ
  gasPrice : ℤ
  exec : ExecVerdict
  hookRegistered : Bool
  hookRaises : Bool
  deriving Repr

/-- Run the stats updates of a sequence of completed
`send_transaction_async` calls, in completion order. -/
def runDispatches (s : Stats) : List OpInput → Stats
  | [] => s
  | op :: rest =>
      runDispatches
        (send_transaction op.from_idx op.to_idx op.b1 op.b2 op.amount_eth
          op.gasPrice op.exec op.hookRegistered op.hookRaises s).stats rest

/-- Result of one `get_balance` call: the returned wei value, the updated
cache and timestamp maps, how many warning-level signals (prints/log
calls) the call emitted, and whether it propagated an exception to the
caller. -/
structure GetBalanceOut where
  value : ℤ
  balance_cache : ℕ → Option ℤ
  last_balance_update : ℕ → Option ℚ
  warnings : ℕ
  raised : Bool

/-- `get_balance` (`trading_simulator.py`, lines 86-102).  Accounts are
identified by their address, modelled as a natural number; `query` is the
outcome of `w3.eth.get_balance(address)` (`none` when the RPC call
raises).  If the cache entry is missing or older than 5 seconds the code
refreshes; a failed refresh is swallowed by `except: pass` (no print, no
re-raise) and the function falls through to
`return self.balance_cache.get(address, 0)`. -/
def get_balance (address : ℕ) (cache : ℕ → Option ℤ)
    (lastUpd : ℕ → Option ℚ) (now : ℚ) (query : Option ℤ) : GetBalanceOut :=
  let stale : Bool :=
    match lastUpd address with
    | none => true
    | some t => decide (now - t > 5)
  if stale then
    match query with
    | some b =>
      { value := b
        balance_cache := Function.update cache address (some b)
        last_balance_update := Function.update lastUpd address (some now)
        warnings := 0
        raised := false }
    | none =>
      { value := (cache address).getD 0
        balance_cache := cache
        last_balance_update := lastUpd
        warnings := 0
        raised := false }
  else
    { value := (cache address).getD 0
      balance_cache := cache
      last_balance_update := lastUpd
      warnings := 0
      raised := false }

/-- State of the per-account sequence-token (nonce) mechanism for two
concurrent `send_transaction_async` coroutines sending from the same
account.  `remoteCount` is what `w3.eth.get_transaction_count(from_address)`
returns: the number of transactions from that address already included on
the node.  `token0`/`token1` record the nonce each coroutine obtained at
line 156; `mined0`/`mined1` whether its transaction has been sent and
included (lines 180-183), which increments the remote count. -/
structure NonceState where
  remoteCount : ℕ
  token0 : Option ℕ
  token1 : Option ℕ
  mined0 : Bool
  mined1 : Bool
  deriving DecidableEq, Repr

/-- Interleaving events of the two coroutines: each reads its nonce once
and later has its transaction mined once.  The source holds no lock
around the read (the coroutines interleave at every RPC await), so any
order of these events is a possible schedule. -/
inductive NonceEvent where
  | read0
  | read1
  | settle0
  | settle1
  deriving DecidableEq, Repr

/-- One event of the nonce interleaving semantics.  A `read` stores the
current remote count as the coroutine's token (line 156); a `settle`
mines the previously submitted transaction, incrementing the remote
count.  Events that are not enabled leave the state unchanged. -/
def nonceStep (s : NonceState) : NonceEvent → NonceState
  | .read0 =>
    match s.token0 with
    | none => { s with token0 := some s.remoteCount }
    | some _ => s
  | .read1 =>
    match s.token1 with
    | none => { s with token1 := some s.remoteCount }
    | some _ => s
  | .settle0 =>
    match s.token0, s.mined0 with
    | some _, false => { s with mined0 := true, remoteCount := s.remoteCount + 1 }
    | _, _ => s
  | .settle1 =>
    match s.token1, s.mined1 with
    | some _, false => { s with mined1 := true, remoteCount := s.remoteCount + 1 }
    | _, _ => s

/-- Run a schedule of interleaving events. -/
def nonceRun (s : NonceState) (evs : List NonceEvent) : NonceState :=
  evs.foldl nonceStep s

/-- Initial state: `n` transactions from the account already included,
neither coroutine has read its nonce yet. -/
def initialNonceState (n : ℕ) : NonceState :=
  { remoteCount := n, token0 := none, token1 := none,
    mined0 := false, mined1 := false }

/-- Modelled from the spec (§4.4 RateController): the schedule the spec
prescribes, `start_time + k / target_rate` for the k-th emission.  Kept
for comparison with the code's actual pacing. -/
def specEmissionTime (start rate : ℚ) (k : ℕ) : ℚ := start + k / rate

/-- Emission times produced by `simulate_random_trading`
(`trading_simulator.py`, lines 229 and 275): `interval = 1.0 /
transactions_per_second`, and after creating each task the loop does
`await asyncio.sleep(interval)`.  So consecutive emissions are separated
by the fixed sleep plus the iteration's own overhead (account selection,
task creation, event-loop slack), modelled by `overhead k ≥ 0`; the first
emission happens after the first iteration's overhead. -/
def codeEmissionTime (start rate : ℚ) (overhead : ℕ → ℚ) : ℕ → ℚ
  | 0 => start + overhead 0
  | k + 1 => codeEmissionTime start rate overhead k + 1 / rate + overhead (k + 1)

/-- The ten hard-coded Anvil default private keys of `initialize`
(`trading_simulator.py`, lines 60-71), as integers. -/
def default_private_keys : List ℕ :=
  [0xac0974bec39a17e36ba4a6b4d238ff944bacb478cbed5efcae784d7bf4f2ff80,
   0x59c6995e998f97a5a0044966f0945389dc9e86dae88c7a8412f4603b6b78690d,
   0x5de4111afa1a4b94908f83103eb1f1706367c2e68ca870fc3fb9a804cdab365a,
   0x7c852118294e51e653712a81e05800f419141751be58f605c371e15141b007a6,
   0x47e179ec197488593b187f80a00eb0da91f1b9d0b13f8733639f19c30a34926a,
   0x8b3a350cf5c34c9194ca85829a2df0ec3153be0318b5e2d3348e872092edffba,
   0x92db14e403b83dfe3df233f83dfa3a0d7096f21ca9b0d6d6b8d88b2b4ec1564e,
   0x4bbbf85ce3377467afe5d46f804f221813b2bb87f24d81f60f1fcdbf7cbf4356,
   0xdbda1821b80551c9d65939329250298aa3472ba22feea921c0cf5d620ea67b97,
   0x2a871d0798f97d79848a013d4936a73bf4cc922c825d33c1cf7073dff6d409c6]

/-- The account/key state `initialize` leaves behind. -/
structure SimAccountsState where
  accounts : List ℕ
  private_keys : List ℕ
  deriving DecidableEq, Repr

/-- Outcome of `initialize`: either it returns normally or it raises an
`IndexError` (from `self.accounts[0]` inside the final print at line 84
when no account was loaded).  The source defines no `ConfigurationError`
and raises nothing else on an account shortfall. -/
inductive InitOutcome where
  | ok (st : SimAccountsState)
  | indexError
  deriving DecidableEq, Repr

/-- `initialize` (`trading_simulator.py`, lines 52-84).  `available` is
the address list `AnvilManager.get_accounts()` returned (that method
returns the RPC result, or `[]` when the request raises,
`anvil_manager.py` lines 76-90).  The code takes the first 50 addresses
(line 56), copies the ten default keys, and appends `key0 + i` for each
further index `i` (lines 74-78); addresses are modelled as naturals. -/
def initializeSim (available : List ℕ) : InitOutcome :=
  let accounts := available.take 50
  let private_keys :=
    default_private_keys ++
      ((List.range accounts.length).drop 10).map
        (fun i => default_private_keys.headD 0 + i)
  if accounts.isEmpty then .indexError
  else .ok { accounts := accounts, private_keys := private_keys }

/-- Phase of the `simulate_random_trading` coroutine: inside the `while`
loop, past the loop awaiting `asyncio.gather(*tasks)`, or returned. -/
inductive RunPhase where
  | looping
  | draining
  | phaseDone
  deriving DecidableEq, Repr

/-- Abstract state of one `simulate_random_trading` run: the clock (in
abstract ticks), the `self.running` flag, the consecutive
`failed_attempts` counter, the number of in-flight dispatched tasks not
yet settled, the total number of intents dispatched, and the phase. -/
structure RunState where
  now : ℕ
  running : Bool
  failed_attempts : ℕ
  pending : ℕ
  dispatched : ℕ
  phase : RunPhase
  deriving DecidableEq, Repr

/-- State on entry to `simulate_random_trading` (line 226 sets
`self.running = True`). -/
def initialRunState : RunState :=
  { now := 0, running := true, failed_attempts := 0, pending := 0,
    dispatched := 0, phase := .looping }

/-- Small-step semantics of `simulate_random_trading` (lines 236-288)
together with its environment.  The loop guard (line 236) is
`time.time() < end_time and self.running and failed_attempts < 100`:

* `dispatchIter`: one iteration that finds a funded sender, creates the
  `send_transaction_async` task (line 269) and sleeps — only possible
  while the guard holds; resets `failed_attempts` (line 257);
* `skipIter`: one iteration that finds no funded sender within ten
  candidate draws (lines 250-254) — increments `failed_attempts` and
  dispatches nothing;
* `exitLoop`: the guard fails, the loop is left for the
  `asyncio.gather` at lines 285-286;
* `settleTask`: an in-flight task completes (environment step);
* `stopSignal`: `stop()` (lines 306-308) sets `self.running = False`;
* `finish`: `asyncio.gather` returns once no task is pending, the
  coroutine sets `self.running = False` (line 288) and returns. -/
inductive RunStep (endTime : ℕ) : RunState → RunState → Prop
  | dispatchIter (s : RunState) (dt : ℕ) :
      s.phase = .looping → s.now < endTime → s.running = true →
      s.failed_attempts < 100 →
      RunStep endTime s
        { s with dispatched := s.dispatched + 1, pending := s.pending + 1,
                 failed_attempts := 0, now := s.now + dt }
  | skipIter (s : RunState) (dt : ℕ) :
      s.phase = .looping → s.now < endTime → s.running = true →
      s.failed_attempts < 100 →
      RunStep endTime s
        { s with failed_attempts := s.failed_attempts + 1, now := s.now + dt }
  | exitLoop (s : RunState) :
      s.phase = .looping →
      ¬(s.now < endTime ∧ s.running = true ∧ s.failed_attempts < 100) →
      RunStep endTime s { s with phase := .draining }
  | settleTask (s : RunState) :
      0 < s.pending →
      RunStep endTime s { s with pending := s.pending - 1 }
  | stopSignal (s : RunState) :
      RunStep endTime s { s with running := false }
  | finish (s : RunState) :
      s.phase = .draining → s.pending = 0 →
      RunStep endTime s { s with phase := .phaseDone, running := false }

/-- States reachable from the start of `simulate_random_trading`. -/
def RunReachable (endTime : ℕ) (s : RunState) : Prop :=
  Relation.ReflTransGen (RunStep endTime) initialRunState s

/-- The observable effect of both insufficient-funds rejection paths of
`send_transaction_async` (they are identical): the exception raised at
line 145 or line 174 is caught at lines 214-218. -/
def insufficientOut (s : Stats) : DispatchOut :=
  { executorCalls := 0
    hookCalls := 0
    returned := none
    stats := { s with
      insufficient_funds := s.insufficient_funds + 1
      total_transactions := s.total_transactions + 1
      failed_transactions := s.failed_transactions + 1 }
    dispatchedAmountWei := none
    balanceCacheWrite := none }

lemma send_transaction_of_nonpos (from_idx to_idx : ℕ) (b1 b2 : ℤ)
    (q : ℚ) (gp : ℤ) (exec : ExecVerdict) (hr hrs : Bool) (s : Stats)
    (h1 : get_safe_amount b1 q ≤ 0) :
    send_transaction from_idx to_idx b1 b2 q gp exec hr hrs s =
      insufficientOut s := by
  unfold send_transaction
  rw [if_pos h1]
  rfl

lemma send_transaction_of_precheck_fail (from_idx to_idx : ℕ) (b1 b2 : ℤ)
    (q : ℚ) (gp : ℤ) (exec : ExecVerdict) (hr hrs : Bool) (s : Stats)
    (h1 : ¬ get_safe_amount b1 q ≤ 0)
    (h2 : (b2 : ℚ) < toWei (get_safe_amount b1 q) + 21000 * (gp : ℚ)) :
    send_transaction from_idx to_idx b1 b2 q gp exec hr hrs s =
      insufficientOut s := by
  unfold send_transaction
  rw [if_neg h1, if_pos h2]
  rfl

lemma send_transaction_of_error (from_idx to_idx : ℕ) (b1 b2 : ℤ)
    (q : ℚ) (gp : ℤ) (hr hrs : Bool) (s : Stats)
    (h1 : ¬ get_safe_amount b1 q ≤ 0)
    (h2 : ¬ (b2 : ℚ) < toWei (get_safe_amount b1 q) + 21000 * (gp : ℚ)) :
    send_transaction from_idx to_idx b1 b2 q gp .error hr hrs s =
      { executorCalls := 1
        hookCalls := 0
        returned := none
        stats := { s with
          total_transactions := s.total_transactions + 1
          failed_transactions := s.failed_transactions + 1 }
        dispatchedAmountWei := some (toWei (get_safe_amount b1 q))
        balanceCacheWrite := none } := by
  unfold send_transaction
  rw [if_neg h1, if_neg h2]

lemma get_safe_amount_pos_eq (b1 : ℤ) (q : ℚ)
    (h : 0 < get_safe_amount b1 q) :
    get_safe_amount b1 q = min q (fromWei b1 - gasReserve) := by
  unfold get_safe_amount at h ⊢
  rcases le_or_lt 0 (fromWei b1 - gasReserve) with hle | hlt
  · rw [max_eq_right hle]
    exact min_comm _ _
  · rw [max_eq_left hlt.le] at h
    exact absurd (lt_min_iff.mp h).1 (lt_irrefl 0)

lemma send_transaction_dispatched (from_idx to_idx : ℕ) (b1 b2 : ℤ)
    (q : ℚ) (gp : ℤ) (exec : ExecVerdict) (hr hrs : Bool) (s : Stats)
    (h1 : ¬ get_safe_amount b1 q ≤ 0)
    (h2 : ¬ (b2 : ℚ) < toWei (get_safe_amount b1 q) + 21000 * (gp : ℚ)) :
    (send_transaction from_idx to_idx b1 b2 q gp exec hr hrs s).dispatchedAmountWei
        = some (toWei (get_safe_amount b1 q))
      ∧ (send_transaction from_idx to_idx b1 b2 q gp exec hr hrs s).executorCalls = 1 := by
  cases exec with
  | error =>
    rw [send_transaction_of_error from_idx to_idx b1 b2 q gp hr hrs s h1 h2]
    exact ⟨rfl, rfl⟩
  | settled ok gasUsed =>
    unfold send_transaction
    rw [if_neg h1, if_neg h2]
    cases hr <;> cases hrs <;> exact ⟨rfl, rfl⟩

/-- Claim C2: the dispatched amount is resolved as
`min(requested_amount, cached_balance - gas_reserve)`; a safe amount at or
below the dispatcher's minimum (a positive transfer) is rejected on the
insufficient-funds path without contacting the executor; whenever the
affordability pre-check `balance < amount + 21000 * gas_price` is true at
check time the executor is never invoked; and an over-budget request whose
clamped amount is still acceptable is clamped and dispatched, not
failed. -/
theorem C2_safe_amount_resolution (from_idx to_idx : ℕ) (b1 b2 : ℤ)
    (q : ℚ) (gp : ℤ) (exec : ExecVerdict) (hr hrs : Bool) (s : Stats) :
    (∀ w, (send_transaction from_idx to_idx b1 b2 q gp exec hr hrs s).dispatchedAmountWei
          = some w → w = toWei (min q (fromWei b1 - gasReserve)))
    ∧ (get_safe_amount b1 q ≤ 0 →
        send_transaction from_idx to_idx b1 b2 q gp exec hr hrs s = insufficientOut s)
    ∧ ((b2 : ℚ) < toWei (get_safe_amount b1 q) + 21000 * (gp : ℚ) →
        (send_transaction from_idx to_idx b1 b2 q gp exec hr hrs s).executorCalls = 0)
    ∧ (0 < fromWei b1 - gasReserve → fromWei b1 - gasReserve < q →
        ¬ (b2 : ℚ) < toWei (get_safe_amount b1 q) + 21000 * (gp : ℚ) →
        (send_transaction from_idx to_idx b1 b2 q gp exec hr hrs s).dispatchedAmountWei
            = some (toWei (fromWei b1 - gasReserve))
          ∧ (send_transaction from_idx to_idx b1 b2 q gp exec hr hrs s).executorCalls = 1) := by
  refine ⟨?_, ?_, ?_, ?_⟩
  · intro w hw
    by_cases h1 : get_safe_amount b1 q ≤ 0
    · rw [send_transaction_of_nonpos from_idx to_idx b1 b2 q gp exec hr hrs s h1] at hw
      exact absurd hw (by simp [insufficientOut])
    · by_cases h2 : (b2 : ℚ) < toWei (get_safe_amount b1 q) + 21000 * (gp : ℚ)
      · rw [send_transaction_of_precheck_fail from_idx to_idx b1 b2 q gp exec hr hrs s h1 h2] at hw
        exact absurd hw (by simp [insufficientOut])
      · have hd := (send_transaction_dispatched from_idx to_idx b1 b2 q gp exec hr hrs s h1 h2).1
        rw [hd] at hw
        have hs := get_safe_amount_pos_eq b1 q (not_le.mp h1)
        rw [hs] at hw
        exact (Option.some.injEq _ _ ▸ hw).symm
  · intro h1
    exact send_transaction_of_nonpos from_idx to_idx b1 b2 q gp exec hr hrs s h1
  · intro h2
    by_cases h1 : get_safe_amount b1 q ≤ 0
    · rw [send_transaction_of_nonpos from_idx to_idx b1 b2 q gp exec hr hrs s h1]
      rfl
    · rw [send_transaction_of_precheck_fail from_idx to_idx b1 b2 q gp exec hr hrs s h1 h2]
      rfl
  · intro hA hB h2
    have hsafe : get_safe_amount b1 q = fromWei b1 - gasReserve := by
      unfold get_safe_amount
      rw [max_eq_right hA.le, min_eq_left hB.le]
    have h1 : ¬ get_safe_amount b1 q ≤ 0 := by
      rw [hsafe]
      exact not_le.mpr hA
    have hd := send_transaction_dispatched from_idx to_idx b1 b2 q gp exec hr hrs s h1 h2
    rw [hsafe] at hd
    exact hd

/-- Witness for C2: a zero-balance request is rejected without contacting
the executor, and a 2 ETH request against a 1 ETH balance is clamped to
0.99 ETH and dispatched. -/
theorem C2_witness :
    send_transaction 0 1 0 0 (1/2) (10^9) .error true false initialStats
        = insufficientOut initialStats
    ∧ (send_transaction 0 1 (10^18) (10^18) 2 (10^9) (.settled true 21000)
        true false initialStats).dispatchedAmountWei = some (toWei (99/100)) := by
  constructor
  · exact (C2_safe_amount_resolution 0 1 0 0 (1/2) (10^9) .error true false
      initialStats).2.1 (by norm_num [get_safe_amount, fromWei, weiPerEth, gasReserve])
  · have hA : (0 : ℚ) < fromWei (10^18) - gasReserve := by
      norm_num [fromWei, weiPerEth, gasReserve]
    have hB : fromWei (10^18 : ℤ) - gasReserve < 2 := by
      norm_num [fromWei, weiPerEth, gasReserve]
    have hsafe : get_safe_amount (10^18) 2 = 99/100 := by
      unfold get_safe_amount
      rw [max_eq_right hA.le, min_eq_left hB.le]
      norm_num [fromWei, weiPerEth, gasReserve]
    have h2 : ¬ ((10^18 : ℤ) : ℚ) < toWei (get_safe_amount (10^18) 2)
        + 21000 * ((10^9 : ℤ) : ℚ) := by
      rw [hsafe]
      norm_num [toWei, weiPerEth]
    have h := ((C2_safe_amount_resolution 0 1 (10^18) (10^18) 2 (10^9)
      (.settled true 21000) true false initialStats).2.2.2 hA hB h2).1
    have he : fromWei (10^18 : ℤ) - gasReserve = 99/100 := by
      norm_num [fromWei, weiPerEth, gasReserve]
    rw [he] at h
    exact h

lemma get_balance_query_failure (address : ℕ) (cache : ℕ → Option ℤ)
    (lastUpd : ℕ → Option ℚ) (now : ℚ) :
    get_balance address cache lastUpd now none =
      { value := (cache address).getD 0
        balance_cache := cache
        last_balance_update := lastUpd
        warnings := 0
        raised := false } := by
  unfold get_balance
  cases hl : lastUpd address with
  | none => simp
  | some t =>
    simp only [hl]
    rw [ite_self]

lemma send_transaction_stats_balanced (from_idx to_idx : ℕ) (b1 b2 : ℤ)
    (q : ℚ) (gp : ℤ) (exec : ExecVerdict) (hr hrs : Bool) (s : Stats)
    (h : s.total_transactions = s.successful_transactions + s.failed_transactions) :
    (send_transaction from_idx to_idx b1 b2 q gp exec hr hrs s).stats.total_transactions =
      (send_transaction from_idx to_idx b1 b2 q gp exec hr hrs s).stats.successful_transactions +
        (send_transaction from_idx to_idx b1 b2 q gp exec hr hrs s).stats.failed_transactions := by
  by_cases h1 : get_safe_amount b1 q ≤ 0
  · rw [send_transaction_of_nonpos from_idx to_idx b1 b2 q gp exec hr hrs s h1]
    simp only [insufficientOut]
    omega
  · by_cases h2 : (b2 : ℚ) < toWei (get_safe_amount b1 q) + 21000 * (gp : ℚ)
    · rw [send_transaction_of_precheck_fail from_idx to_idx b1 b2 q gp exec hr hrs s h1 h2]
      simp only [insufficientOut]
      omega
    · cases exec with
      | error =>
        rw [send_transaction_of_error from_idx to_idx b1 b2 q gp hr hrs s h1 h2]
        simp only []
        omega
      | settled ok gasUsed =>
        unfold send_transaction
        rw [if_neg h1, if_neg h2]
        cases hr <;> cases hrs <;> cases ok <;> simp <;> omega

/-- Claim C3: starting from the zero-initialised stats, after any sequence
of completed `send_transaction_async` calls the `total_transactions`
counter equals `successful_transactions + failed_transactions`. -/
theorem C3_submitted_eq_succeeded_plus_failed (ops : List OpInput) :
    (runDispatches initialStats ops).total_transactions =
      (runDispatches initialStats ops).successful_transactions +
        (runDispatches initialStats ops).failed_transactions := by
  suffices h : ∀ (l : List OpInput) (s : Stats),
      s.total_transactions = s.successful_transactions + s.failed_transactions →
      (runDispatches s l).total_transactions =
        (runDispatches s l).successful_transactions +
          (runDispatches s l).failed_transactions by
    exact h ops initialStats rfl
  intro l
  induction l with
  | nil => intro s h; exact h
  | cons op rest ih =>
    intro s h
    simp only [runDispatches]
    exact ih _ (send_transaction_stats_balanced op.from_idx op.to_idx op.b1
      op.b2 op.amount_eth op.gasPrice op.exec op.hookRegistered op.hookRaises s h)

/-- Counterexample to claim C4: with a funded sender (1 ETH), a 0.5 ETH
request, a registered observer hook and an executor that fails, the code
invokes the hook zero times (not once) and returns `None` instead of an
outcome with `settled = false`. -/
theorem C4_counterexample :
    (send_transaction 0 1 (10^18) (10^18) (1/2) (10^9) .error true false
        initialStats).hookCalls = 0
    ∧ (send_transaction 0 1 (10^18) (10^18) (1/2) (10^9) .error true false
        initialStats).returned = none := by
  have h1 : ¬ get_safe_amount (10^18) (1/2) ≤ 0 := by
    norm_num [get_safe_amount, fromWei, weiPerEth, gasReserve, min_def, max_def]
  have h2 : ¬ ((10^18 : ℤ) : ℚ) < toWei (get_safe_amount (10^18) (1/2))
      + 21000 * ((10^9 : ℤ) : ℚ) := by
    have hs : get_safe_amount (10^18) (1/2) = 1/2 := by
      norm_num [get_safe_amount, fromWei, weiPerEth, gasReserve, min_def, max_def]
    rw [hs]
    norm_num [toWei, weiPerEth]
  rw [send_transaction_of_error 0 1 (10^18) (10^18) (1/2) (10^9) true false
    initialStats h1 h2]
  exact ⟨rfl, rfl⟩

/-- Claim C4 as amended: on every executor failure after submission the
dispatcher increments `failed_transactions` exactly once and
`total_transactions` exactly once for that intent, leaves
`successful_transactions` untouched, performs exactly one executor call
(no automatic retry) — but it invokes the observer hook zero times and
returns `None` rather than constructing an outcome with
`settled = false`. -/
theorem C4_executor_failure_accounting (from_idx to_idx : ℕ) (b1 b2 : ℤ)
    (q : ℚ) (gp : ℤ) (hr hrs : Bool) (s : Stats)
    (h1 : ¬ get_safe_amount b1 q ≤ 0)
    (h2 : ¬ (b2 : ℚ) < toWei (get_safe_amount b1 q) + 21000 * (gp : ℚ)) :
    (send_transaction from_idx to_idx b1 b2 q gp .error hr hrs s).executorCalls = 1
    ∧ (send_transaction from_idx to_idx b1 b2 q gp .error hr hrs s).hookCalls = 0
    ∧ (send_transaction from_idx to_idx b1 b2 q gp .error hr hrs s).returned = none
    ∧ (send_transaction from_idx to_idx b1 b2 q gp .error hr hrs s).stats.failed_transactions
        = s.failed_transactions + 1
    ∧ (send_transaction from_idx to_idx b1 b2 q gp .error hr hrs s).stats.total_transactions
        = s.total_transactions + 1
    ∧ (send_transaction from_idx to_idx b1 b2 q gp .error hr hrs s).stats.successful_transactions
        = s.successful_transactions := by
  rw [send_transaction_of_error from_idx to_idx b1 b2 q gp hr hrs s h1 h2]
  exact ⟨rfl, rfl, rfl, rfl, rfl, rfl⟩

/-- Witness for C4: the amended accounting at a concrete failing
operation. -/
theorem C4_witness :
    (send_transaction 0 1 (2 * 10^18) (2 * 10^18) (1/4) (10^9) .error false false
        initialStats).executorCalls = 1
    ∧ (send_transaction 0 1 (2 * 10^18) (2 * 10^18) (1/4) (10^9) .error false false
        initialStats).stats.failed_transactions = 1 := by
  have h1 : ¬ get_safe_amount (2 * 10^18) (1/4) ≤ 0 := by
    norm_num [get_safe_amount, fromWei, weiPerEth, gasReserve, min_def, max_def]
  have h2 : ¬ ((2 * 10^18 : ℤ) : ℚ) < toWei (get_safe_amount (2 * 10^18) (1/4))
      + 21000 * ((10^9 : ℤ) : ℚ) := by
    have hs : get_safe_amount (2 * 10^18) (1/4) = 1/4 := by
      norm_num [get_safe_amount, fromWei, weiPerEth, gasReserve, min_def, max_def]
    rw [hs]
    norm_num [toWei, weiPerEth]
  have h := C4_executor_failure_accounting 0 1 (2 * 10^18) (2 * 10^18) (1/4)
    (10^9) false false initialStats h1 h2
  exact ⟨h.1, h.2.2.2.1⟩

/-- Claim C9: an account with no cached balance entry whose refresh query
fails is reported as having balance 0 (no exception), and an intent from
such an account is rejected on the insufficient-funds path — counted, and
the executor is never contacted. -/
theorem C9_unfetched_account_rejected (address from_idx to_idx : ℕ)
    (cache : ℕ → Option ℤ) (lastUpd : ℕ → Option ℚ) (now : ℚ)
    (b2 : ℤ) (q : ℚ) (gp : ℤ) (exec : ExecVerdict) (hr hrs : Bool) (s : Stats)
    (hcache : cache address = none) :
    (get_balance address cache lastUpd now none).value = 0
    ∧ (get_balance address cache lastUpd now none).raised = false
    ∧ send_transaction from_idx to_idx
        ((get_balance address cache lastUpd now none).value) b2 q gp exec hr hrs s
        = insufficientOut s := by
  have hval : (get_balance address cache lastUpd now none).value = 0 := by
    rw [get_balance_query_failure, hcache]
    rfl
  have hraised : (get_balance address cache lastUpd now none).raised = false := by
    rw [get_balance_query_failure]
  refine ⟨hval, hraised, ?_⟩
  rw [hval]
  refine send_transaction_of_nonpos from_idx to_idx 0 b2 q gp exec hr hrs s ?_
  unfold get_safe_amount
  have : fromWei 0 - gasReserve < 0 := by
    norm_num [fromWei, gasReserve]
  rw [max_eq_left this.le]
  exact min_le_left 0 q

/-- Witness for C9: a concrete never-fetched account. -/
theorem C9_witness :
    (get_balance 3 (fun _ => none) (fun _ => none) 0 none).value = 0
    ∧ send_transaction 0 1
        ((get_balance 3 (fun _ => none) (fun _ => none) 0 none).value)
        0 (1/2) (10^9) .error true false initialStats = insufficientOut initialStats := by
  have h := C9_unfetched_account_rejected 3 0 1 (fun _ => none) (fun _ => none)
    0 0 (1/2) (10^9) .error true false initialStats rfl
  exact ⟨h.1, h.2.2⟩

/-- Claim C10: every pre-submission insufficient-funds rejection (safe
amount at most 0, or the final balance check failing) increments
`insufficient_funds`, `total_transactions` and `failed_transactions` each
by one, without contacting the executor. -/
theorem C10_rejection_counts_as_submitted_failed (from_idx to_idx : ℕ)
    (b1 b2 : ℤ) (q : ℚ) (gp : ℤ) (exec : ExecVerdict) (hr hrs : Bool) (s : Stats)
    (h : get_safe_amount b1 q ≤ 0
      ∨ (b2 : ℚ) < toWei (get_safe_amount b1 q) + 21000 * (gp : ℚ)) :
    (send_transaction from_idx to_idx b1 b2 q gp exec hr hrs s).stats.insufficient_funds
        = s.insufficient_funds + 1
    ∧ (send_transaction from_idx to_idx b1 b2 q gp exec hr hrs s).stats.total_transactions
        = s.total_transactions + 1
    ∧ (send_transaction from_idx to_idx b1 b2 q gp exec hr hrs s).stats.failed_transactions
        = s.failed_transactions + 1
    ∧ (send_transaction from_idx to_idx b1 b2 q gp exec hr hrs s).executorCalls = 0 := by
  have heq : send_transaction from_idx to_idx b1 b2 q gp exec hr hrs s
      = insufficientOut s := by
    rcases h with h1 | h2
    · exact send_transaction_of_nonpos from_idx to_idx b1 b2 q gp exec hr hrs s h1
    · by_cases h1 : get_safe_amount b1 q ≤ 0
      · exact send_transaction_of_nonpos from_idx to_idx b1 b2 q gp exec hr hrs s h1
      · exact send_transaction_of_precheck_fail from_idx to_idx b1 b2 q gp exec hr hrs s h1 h2
  rw [heq]
  exact ⟨rfl, rfl, rfl, rfl⟩

/-- Witness for C10: a concrete broke sender. -/
theorem C10_witness :
    (send_transaction 0 1 0 0 (1/2) (10^9) (.settled true 21000) true false
        initialStats).stats.insufficient_funds = 1
    ∧ (send_transaction 0 1 0 0 (1/2) (10^9) (.settled true 21000) true false
        initialStats).stats.failed_transactions = 1
    ∧ (send_transaction 0 1 0 0 (1/2) (10^9) (.settled true 21000) true false
        initialStats).executorCalls = 0 := by
  have h := C10_rejection_counts_as_submitted_failed 0 1 0 0 (1/2) (10^9)
    (.settled true 21000) true false initialStats
    (Or.inl (by norm_num [get_safe_amount, fromWei, weiPerEth, gasReserve, min_def, max_def]))
  exact ⟨h.1, h.2.2.1, h.2.2.2⟩

/-- Counterexample to claim C1: two concurrently dispatched operations
from the same account that both read `get_transaction_count` before
either transaction is mined receive the same sequence token (here both
get token 5), refuting atomic at-most-once issuance. -/
theorem C1_counterexample :
    (nonceRun (initialNonceState 5)
        [.read0, .read1, .settle0, .settle1]).token0 = some 5
    ∧ (nonceRun (initialNonceState 5)
        [.read0, .read1, .settle0, .settle1]).token1 = some 5 := by
  decide

/-- Claim C1 as amended: the token an operation receives is the remote
transaction count at the moment of its read, so when operations from the
same account are serialized — each settles before the next reads — the
issued tokens are distinct and strictly increasing; concurrent dispatch
gives no such guarantee (see the counterexample). -/
theorem C1_serialized_tokens_increase (n : ℕ) :
    (nonceRun (initialNonceState n)
        [.read0, .settle0, .read1, .settle1]).token0 = some n
    ∧ (nonceRun (initialNonceState n)
        [.read0, .settle0, .read1, .settle1]).token1 = some (n + 1)
    ∧ n < n + 1 :=
  ⟨rfl, rfl, Nat.lt_succ_self n⟩

/-- Counterexample to claim C5: with one time unit of per-iteration
overhead, the second emission of the fixed-sleep loop happens at time 3,
not at the claimed absolute schedule `start_time + k / target_rate = 1`
(rate 1, start 0) — the code paces by a fixed sleep after each emission,
which decays under overhead. -/
theorem C5_counterexample :
    codeEmissionTime 0 1 (fun _ => 1) 1 ≠ specEmissionTime 0 1 1 := by
  have h1 : codeEmissionTime 0 1 (fun _ => 1) 1
      = codeEmissionTime 0 1 (fun _ => 1) 0 + 1 / 1 + 1 := rfl
  have h0 : codeEmissionTime 0 1 (fun _ => 1) 0 = 0 + 1 := rfl
  rw [h1, h0]
  norm_num [specEmissionTime]

/-- Claim C5 as amended: the loop sleeps a fixed `1 / target_rate` after
each emission (it does not schedule at `start_time + k / target_rate`),
and consequently, for nonnegative per-iteration overheads and a positive
rate, the elapsed time from the first emission to emission `k` is at
least `k / rate`; issuing `k` operations therefore takes at least
`(k - 1) / rate`. -/
theorem C5_fixed_sleep_lower_bound (start rate : ℚ) (overhead : ℕ → ℚ)
    (k : ℕ) (hrate : 0 < rate) (hov : ∀ i, 0 ≤ overhead i) :
    (k : ℚ) / rate ≤
      codeEmissionTime start rate overhead k
        - codeEmissionTime start rate overhead 0 := by
  induction k with
  | zero => simp
  | succ k ih =>
    have hstep : codeEmissionTime start rate overhead (k + 1)
        = codeEmissionTime start rate overhead k + 1 / rate + overhead (k + 1) := rfl
    have hdiv : ((k : ℚ) + 1) / rate = (k : ℚ) / rate + 1 / rate := add_div _ _ _
    have hk := hov (k + 1)
    have hr : 0 < 1 / rate := by positivity
    push_cast
    rw [hstep, hdiv]
    linarith

/-- Witness for C5: fifty ideal (zero-overhead) emissions at rate 10 take
at least 4.9 seconds. -/
theorem C5_witness :
    (49 : ℚ) / 10 ≤ codeEmissionTime 0 10 (fun _ => 0) 49
      - codeEmissionTime 0 10 (fun _ => 0) 0 := by
  have h := C5_fixed_sleep_lower_bound 0 10 (fun _ => 0) 49 (by norm_num)
    (fun i => le_refl 0)
  exact_mod_cast h

/-- Counterexample to claim C6: a stale cached balance (7 wei) with a
failing refresh query is retained and returned and the caller is not
aborted, but zero warning-level signals are emitted — the failure is
swallowed silently by `except: pass`, refuting the signalled-warning
part of the claim. -/
theorem C6_counterexample :
    (get_balance 0 (fun a => if a = 0 then some 7 else none)
        (fun a => if a = 0 then some (0 : ℚ) else none) 10 none).value = 7
    ∧ (get_balance 0 (fun a => if a = 0 then some 7 else none)
        (fun a => if a = 0 then some (0 : ℚ) else none) 10 none).warnings = 0
    ∧ (get_balance 0 (fun a => if a = 0 then some 7 else none)
        (fun a => if a = 0 then some (0 : ℚ) else none) 10 none).raised = false
    ∧ (get_balance 0 (fun a => if a = 0 then some 7 else none)
        (fun a => if a = 0 then some (0 : ℚ) else none) 10 none).balance_cache 0
        = some 7 := by
  rw [get_balance_query_failure]
  exact ⟨rfl, rfl, rfl, rfl⟩

/-- Claim C6 as amended: when the refresh query fails during a get, the
stale cached value is retained and returned and the calling operation is
not aborted — but no warning-level condition is signaled; the failure is
silent. -/
theorem C6_refresh_failure_silent (address : ℕ) (cache : ℕ → Option ℤ)
    (lastUpd : ℕ → Option ℚ) (now : ℚ) (b : ℤ)
    (hcache : cache address = some b) :
    (get_balance address cache lastUpd now none).value = b
    ∧ (get_balance address cache lastUpd now none).balance_cache = cache
    ∧ (get_balance address cache lastUpd now none).last_balance_update = lastUpd
    ∧ (get_balance address cache lastUpd now none).warnings = 0
    ∧ (get_balance address cache lastUpd now none).raised = false := by
  rw [get_balance_query_failure]
  refine ⟨?_, rfl, rfl, rfl, rfl⟩
  rw [hcache]
  rfl

/-- Witness for C6: the silent-retention behaviour at a concrete cache. -/
theorem C6_witness :
    (get_balance 2 (fun a => if a = 2 then some 42 else none)
        (fun _ => none) 0 none).value = 42
    ∧ (get_balance 2 (fun a => if a = 2 then some 42 else none)
        (fun _ => none) 0 none).warnings = 0 := by
  have h := C6_refresh_failure_silent 2 (fun a => if a = 2 then some 42 else none)
    (fun _ => none) 0 42 rfl
  exact ⟨h.1, h.2.2.2.1⟩

/-- Counterexample to claim C7: with a single pre-provisioned identity
available (fewer than the 50 requested), `initialize` succeeds with one
account and the ten default keys — it does not fail with a
`ConfigurationError` (the source defines no such error and slices
whatever is available). -/
theorem C7_counterexample :
    initializeSim [7]
        = .ok { accounts := [7], private_keys := default_private_keys }
    ∧ ([7] : List ℕ).length < 50 :=
  ⟨rfl, by norm_num⟩

/-- Claim C7 as amended: account loading populates exactly
`min(available, 50)` accounts at indices `0..len-1` and succeeds whenever
at least one identity is available; a shortfall raises no error, and the
key list has length `max 10 accounts` (the first ten are the hard-coded
defaults, the rest synthesized), so it matches the account count only
beyond ten accounts. -/
theorem C7_loads_min_available_50 (available : List ℕ) (h : available ≠ []) :
    ∃ st, initializeSim available = .ok st
      ∧ st.accounts = available.take 50
      ∧ st.accounts.length = min available.length 50
      ∧ st.private_keys.length = max 10 st.accounts.length := by
  have hne : ¬ (available.take 50).isEmpty = true := by
    simp only [List.isEmpty_iff, List.take_eq_nil_iff]
    push_neg
    exact ⟨by norm_num, h⟩
  unfold initializeSim
  rw [if_neg hne]
  refine ⟨_, rfl, rfl, ?_, ?_⟩
  · rw [List.length_take]
    exact min_comm _ _
  · simp only [List.length_append, List.length_map, List.length_drop,
      List.length_range]
    have hdef : default_private_keys.length = 10 := rfl
    rw [hdef]
    omega

/-- Witness for C7: loading from a single available identity. -/
theorem C7_witness :
    ∃ st, initializeSim [7] = .ok st
      ∧ st.accounts = ([7] : List ℕ).take 50
      ∧ st.accounts.length = min ([7] : List ℕ).length 50
      ∧ st.private_keys.length = max 10 st.accounts.length :=
  C7_loads_min_available_50 [7] (by simp)

lemma runStep_no_dispatch_after_stop (endTime : ℕ) (a b : RunState)
    (hstep : RunStep endTime a b) (hrun : a.running = false) :
    b.dispatched = a.dispatched ∧ b.running = false := by
  cases hstep with
  | dispatchIter dt h1 h2 h3 h4 => simp [hrun] at h3
  | skipIter dt h1 h2 h3 h4 => simp [hrun] at h3
  | exitLoop h1 h2 => exact ⟨rfl, hrun⟩
  | settleTask h1 => exact ⟨rfl, hrun⟩
  | stopSignal => exact ⟨rfl, rfl⟩
  | finish h1 h2 => exact ⟨rfl, rfl⟩

/-- Claim C8: once the `running` flag is cleared, no further steps of the
`simulate_random_trading` loop dispatch a new intent (and the flag stays
cleared); and the coroutine reaches its returned (`phaseDone`) state only
with zero in-flight tasks — every dispatched operation settles before
completion is declared. -/
theorem C8_stop_halts_and_drains (endTime : ℕ) (s s' : RunState) :
    (Relation.ReflTransGen (RunStep endTime) s s' → s.running = false →
      s'.dispatched = s.dispatched ∧ s'.running = false)
    ∧ (RunReachable endTime s → s.phase = .phaseDone → s.pending = 0) := by
  constructor
  · intro hchain hrun
    induction hchain with
    | refl => exact ⟨rfl, hrun⟩
    | tail hab hbc ih =>
      obtain ⟨hd, hr⟩ := ih
      obtain ⟨hd2, hr2⟩ := runStep_no_dispatch_after_stop endTime _ _ hbc hr
      exact ⟨hd2.trans hd, hr2⟩
  · intro hreach
    have inv : ∀ t, Relation.ReflTransGen (RunStep endTime) initialRunState t →
        t.phase = .phaseDone → t.pending = 0 := by
      intro t ht
      induction ht with
      | refl => intro hdone; exact absurd hdone (by decide)
      | @tail b c hab hbc ih =>
        intro hdone
        cases hbc with
        | dispatchIter dt h1 h2 h3 h4 =>
          have hp : b.phase = .phaseDone := hdone
          rw [h1] at hp
          exact absurd hp (by decide)
        | skipIter dt h1 h2 h3 h4 =>
          have hp : b.phase = .phaseDone := hdone
          rw [h1] at hp
          exact absurd hp (by decide)
        | exitLoop h1 h2 =>
          have hp : RunPhase.draining = RunPhase.phaseDone := hdone
          exact absurd hp (by decide)
        | settleTask h1 =>
          have hp : b.phase = .phaseDone := hdone
          have h0 := ih hp
          show b.pending - 1 = 0
          omega
        | stopSignal =>
          have hp : b.phase = .phaseDone := hdone
          exact ih hp
        | finish h1 h2 =>
          exact h2
    exact inv s hreach

/-- The state of a run whose `stop()` arrived while one task was still in
flight and three intents had been dispatched. -/
def stoppedRunState : RunState :=
  { now := 0, running := false, failed_attempts := 0, pending := 1,
    dispatched := 3, phase := .looping }

/-- The state at the end of the trace stop → loop exit → drain. -/
def drainedFinalState : RunState :=
  { { { initialRunState with running := false } with phase := .draining }
      with phase := .phaseDone, running := false }

/-- Witness for C8: a settle step after stop leaves the dispatch count
unchanged, and a concrete stop → exit → finish trace reaches completion
with zero pending tasks. -/
theorem C8_witness :
    ({ stoppedRunState with pending := stoppedRunState.pending - 1 }).dispatched
        = stoppedRunState.dispatched
    ∧ drainedFinalState.pending = 0 := by
  constructor
  · exact ((C8_stop_halts_and_drains 0 stoppedRunState
      { stoppedRunState with pending := stoppedRunState.pending - 1 }).1
      (Relation.ReflTransGen.single (RunStep.settleTask stoppedRunState (by decide)))
      rfl).1
  · refine (C8_stop_halts_and_drains 0 drainedFinalState drainedFinalState).2 ?_ rfl
    show Relation.ReflTransGen (RunStep 0) initialRunState drainedFinalState
    have st1 : RunStep 0 initialRunState { initialRunState with running := false } :=
      RunStep.stopSignal initialRunState
    have st2 : RunStep 0 { initialRunState with running := false }
        { { initialRunState with running := false } with phase := .draining } :=
      RunStep.exitLoop { initialRunState with running := false } rfl (by decide)
    have st3 : RunStep 0
        { { initialRunState with running := false } with phase := .draining }
        drainedFinalState :=
      RunStep.finish
        { { initialRunState with running := false } with phase := .draining } rfl rfl
    exact Relation.ReflTransGen.tail
      (Relation.ReflTransGen.tail (Relation.ReflTransGen.single st1) st2) st3

end Anvil
